import Mathlib

/-!
Shallow embedding of the transaction CRUD backend (src/backend/main.go).

The database table `transactions` is modelled as a list of rows plus the
next value of the SERIAL id column; each HTTP handler becomes a pure
function from a database state and a decoded request to a response and a
new database state.  Amounts (Go float64 / SQL NUMERIC) are modelled as
exact rationals, rounded to two decimal places by the NUMERIC(10, 2)
column whenever they are written to the table; timestamps are integers;
HTTP methods are the literal strings the Go code compares against.
-/

namespace TransactionApp

/-- A row of the `transactions` table / the Go `Transaction` struct. -/
structure Transaction where
  id : Int
  description : String
  amount : ℚ
  type : String
  created_at : Int
deriving DecidableEq, Repr

/-- The database: the rows of the `transactions` table and the next
value the SERIAL `id` column will assign. -/
structure DBState where
  rows : List Transaction
  nextId : Int
deriving DecidableEq, Repr

/-- The JSON shapes this API writes: `null`, an array of transaction
objects, or a single transaction object. -/
inductive JsonValue where
  | null : JsonValue
  | arr (xs : List Transaction) : JsonValue
  | obj (t : Transaction) : JsonValue
deriving DecidableEq, Repr

/-- An HTTP response body: JSON, plain text, or empty. -/
inductive BodyVal where
  | json (j : JsonValue) : BodyVal
  | text (s : String) : BodyVal
  | empty : BodyVal
deriving DecidableEq, Repr

/-- An inbound HTTP request as the handlers see it: method, URL path,
`Origin` header (the empty string when absent, as the Go
`Header.Get` returns), and the JSON-decoded body (`none` models a
decode error). -/
structure Request where
  method : String
  path : String
  origin : String
  body : Option Transaction
deriving DecidableEq, Repr

/-- A finished HTTP response: status code, body, and the
`Access-Control-Allow-Origin` header (`none` when not set). -/
structure Response where
  status : Nat
  body : BodyVal
  acao : Option String
deriving DecidableEq, Repr

/-- A Go slice of transactions: `none` is the nil slice (JSON `null`),
`some l` a non-nil slice (JSON array). -/
def GoSlice : Type := Option (List Transaction)

/-- The Go slice literal on line 133 of main.go: a non-nil empty
slice. -/
def goSliceEmpty : GoSlice := some []

/-- Go `append` on a transaction slice. -/
def goAppend (xs : GoSlice) (t : Transaction) : GoSlice :=
  match xs with
  | none => some [t]
  | some l => some (l ++ [t])

/-- How `encoding/json` treats a transaction slice: nil encodes as
`null`, non-nil as an array. -/
def encodeSlice : GoSlice → JsonValue
  | none => JsonValue.null
  | some l => JsonValue.arr l

/-- The validation check shared by `createTransaction` (line 161) and
`updateTransaction` (line 249):
`t.Description == "" || t.Amount <= 0 || (t.Type != "income" && t.Type != "expense")`. -/
def invalidInput (t : Transaction) : Prop :=
  t.description = "" ∨ t.amount ≤ 0 ∨ (t.type ≠ "income" ∧ t.type ≠ "expense")

instance (t : Transaction) : Decidable (invalidInput t) :=
  inferInstanceAs (Decidable (_ ∨ _ ∨ _))

/-- Rounding performed by the `amount NUMERIC(10, 2)` column of the
schema (main.go line 70) when a value is written: the amount is rounded
to a whole number of cents.  Postgres numeric rounding is half away
from zero, which on the positive amounts that pass validation
coincides with the half-up rounding `round` used here. -/
def roundCents (q : ℚ) : ℚ := ((round (q * 100) : ℤ) : ℚ) / 100

/-- The exact rational 1/200, an amount of half a cent. -/
def centHalf : ℚ := ⟨1, 200, by decide, Nat.coprime_one_left 200⟩

/-- A create input whose amount is not representable in two decimal
places. -/
def txHalfCent : Transaction := ⟨0, "redondeo", centHalf, "income", 0⟩

/-- The comparison behind `ORDER BY created_at DESC`: row `a` comes no
later than row `b` when the timestamp of `a` is at least the timestamp
of `b`. -/
def rCreated (a b : Transaction) : Prop := b.created_at ≤ a.created_at

instance : DecidableRel rCreated :=
  fun a b => inferInstanceAs (Decidable (b.created_at ≤ a.created_at))

instance : IsTotal Transaction rCreated :=
  ⟨fun a b => le_total b.created_at a.created_at⟩

instance : IsTrans Transaction rCreated :=
  ⟨fun _ _ _ hab hbc => le_trans hbc hab⟩

/-- The result set of `SELECT ... ORDER BY created_at DESC`. -/
def orderByCreatedDesc (rows : List Transaction) : List Transaction :=
  List.insertionSort rCreated rows

/-- Handler for GET /transactions (main.go lines 120-145): any other
method is 405; otherwise the rows are queried newest-first, appended one
by one to an initially empty non-nil slice, and encoded as JSON. -/
def getTransactions (s : DBState) (m : String) : Nat × BodyVal :=
  if m ≠ "GET" then (405, BodyVal.text "Método no permitido")
  else
    let slice := (orderByCreatedDesc s.rows).foldl goAppend goSliceEmpty
    (200, BodyVal.json (encodeSlice slice))

/-- Handler for POST /transaction (main.go lines 148-182): non-POST is
405, a body that fails to decode is 400, invalid field values are 400;
otherwise the row is inserted with a server-assigned id and timestamp
and echoed back with status 201. -/
def createTransaction (s : DBState) (m : String) (body : Option Transaction)
    (now : Int) : (Nat × BodyVal) × DBState :=
  if m ≠ "POST" then ((405, BodyVal.text "Método no permitido"), s)
  else
    match body with
    | none => ((400, BodyVal.text "json decode error"), s)
    | some t =>
      if invalidInput t then
        ((400, BodyVal.text "Descripción, monto o tipo inválido"), s)
      else
        let t' : Transaction :=
          { t with id := s.nextId, amount := roundCents t.amount, created_at := now }
        ((201, BodyVal.json (JsonValue.obj t')),
          { rows := s.rows ++ [t'], nextId := s.nextId + 1 })

/-- The query `SELECT ... WHERE id = $1` followed by `QueryRow.Scan`
(main.go lines 222-238): the first row with the given id, or 404. -/
def getTransactionByID (s : DBState) (id : Int) : Nat × BodyVal :=
  match s.rows.find? (fun r => decide (r.id = id)) with
  | none => (404, BodyVal.text "Transacción no encontrada")
  | some t => (200, BodyVal.json (JsonValue.obj t))

/-- The effect of `UPDATE transactions SET description=$1, amount=$2,
type=$3 WHERE id=$4` on one row; the NUMERIC(10,2) column rounds the
written amount to cents. -/
def updRow (t : Transaction) (id : Int) (r : Transaction) : Transaction :=
  if r.id = id then
    { r with description := t.description, amount := roundCents t.amount, type := t.type }
  else r

/-- Handler for PUT /transaction/id (main.go lines 241-273): decode
error or invalid fields are 400; otherwise the UPDATE statement runs,
zero affected rows is 404, success is 200 with a plain-text message. -/
def updateTransaction (s : DBState) (body : Option Transaction) (id : Int) :
    (Nat × BodyVal) × DBState :=
  match body with
  | none => ((400, BodyVal.text "json decode error"), s)
  | some t =>
    if invalidInput t then
      ((400, BodyVal.text "Descripción, monto o tipo inválido"), s)
    else
      let affected := s.rows.countP (fun r => decide (r.id = id))
      let s' : DBState := { s with rows := s.rows.map (updRow t id) }
      if affected = 0 then ((404, BodyVal.text "Transacción no encontrada"), s')
      else
        ((200, BodyVal.text
            ("Transacción " ++ toString id ++ " actualizada correctamente")), s')

/-- Handler for DELETE /transaction/id (main.go lines 276-295): the
DELETE statement runs, zero affected rows is 404, success is 200 with a
plain-text message. -/
def deleteTransaction (s : DBState) (id : Int) : (Nat × BodyVal) × DBState :=
  let affected := s.rows.countP (fun r => decide (r.id = id))
  let s' : DBState := { s with rows := s.rows.filter (fun r => decide (r.id ≠ id)) }
  if affected = 0 then ((404, BodyVal.text "Transacción no encontrada"), s')
  else
    ((200, BodyVal.text
        ("Transacción " ++ toString id ++ " eliminada correctamente")), s')

/-- The function `splitPath` of main.go (lines 211-219): splits on the
path separator, which is the slash on Linux, keeping only non-empty
parts. -/
def splitPathAux : List Char → List Char → List String
  | [], acc => if acc.isEmpty then [] else [String.mk acc.reverse]
  | c :: cs, acc =>
    if c = '/' then
      if acc.isEmpty then splitPathAux cs []
      else String.mk acc.reverse :: splitPathAux cs []
    else splitPathAux cs (c :: acc)

/-- The non-empty slash-separated segments of a URL path. -/
def splitPath (path : String) : List String :=
  splitPathAux path.toList []

/-- Whether a character is an ASCII decimal digit. -/
def isDigitChar (c : Char) : Bool := decide ('0' ≤ c) && decide (c ≤ '9')

/-- The value of a list of decimal digit characters, most significant
first, accumulated from `acc`. -/
def digitsValAux (acc : Nat) : List Char → Nat
  | [] => acc
  | c :: cs => digitsValAux (acc * 10 + (c.toNat - 48)) cs

/-- The Go function `strconv.Atoi`: an optional sign followed by at
least one decimal digit, anything else is an error (`none`). -/
def atoi (s : String) : Option Int :=
  match s.toList with
  | [] => none
  | '-' :: ds =>
    if ds ≠ [] ∧ ds.all isDigitChar then some (-(digitsValAux 0 ds : Int)) else none
  | '+' :: ds =>
    if ds ≠ [] ∧ ds.all isDigitChar then some ((digitsValAux 0 ds : Int)) else none
  | ds =>
    if ds.all isDigitChar then some ((digitsValAux 0 ds : Int)) else none

/-- The trailing segment the handler parses as the id, the last element
of the split path (main.go line 192). -/
def lastSegment (parts : List String) : String :=
  parts.getLastD ""

/-- Handler for the /transaction/ subtree (main.go lines 185-209):
fewer than two path segments is 400, a non-numeric trailing segment is
400; otherwise dispatch on the method, anything but PUT/DELETE/GET
being 405. -/
def handleTransactionByID (s : DBState) (m : String) (path : String)
    (body : Option Transaction) : (Nat × BodyVal) × DBState :=
  let parts := splitPath path
  if parts.length < 2 then
    ((400, BodyVal.text "ID de transacción no proporcionado"), s)
  else
    match atoi (lastSegment parts) with
    | none => ((400, BodyVal.text "ID de transacción inválido"), s)
    | some id =>
      if m = "PUT" then updateTransaction s body id
      else if m = "DELETE" then deleteTransaction s id
      else if m = "GET" then (getTransactionByID s id, s)
      else ((405, BodyVal.text "Método no permitido"), s)

/-- The fixed CORS allow-list (main.go lines 84-88). -/
def allowedOrigins : List String :=
  ["http://165.22.139.71:8080", "http://localhost:8080", "http://127.0.0.1:8080"]

/-- The `Access-Control-Allow-Origin` header the CORS wrapper sets: the
request origin when it is on the allow-list, absent otherwise
(main.go lines 91-97). -/
def corsACAO (origin : String) : Option String :=
  if origin ∈ allowedOrigins then some origin else none

/-- The CORS middleware (main.go lines 81-108) around an inner handler
`h`: it computes the allow-origin header, answers OPTIONS requests
directly with 200 and no body, and otherwise delegates to `h`. -/
def corsHandler (h : DBState → Request → Int → (Nat × BodyVal) × DBState)
    (s : DBState) (req : Request) (now : Int) : Response × DBState :=
  let acao := corsACAO req.origin
  if req.method = "OPTIONS" then (⟨200, BodyVal.empty, acao⟩, s)
  else
    let r := h s req now
    (⟨r.1.1, r.1.2, acao⟩, r.2)

/-- Whether the first list is a leading piece of the second. -/
def listStarts : List Char → List Char → Bool
  | [], _ => true
  | _ :: _, [] => false
  | a :: as, b :: bs => a = b && listStarts as bs

/-- Whether `p` is a leading piece of `s` (Go `strings.HasPrefix`). -/
def strStarts (s p : String) : Bool := listStarts p.toList s.toList

/-- Whether the request path matches one of the three registered route
patterns (main.go lines 111-113): the exact paths /transactions and
/transaction, and the /transaction/ subtree. -/
def routeMatch (path : String) : Bool :=
  path = "/transactions" || path = "/transaction" || strStarts path "/transaction/"

/-- Method-and-path dispatch to the three registered handlers. -/
def dispatch (s : DBState) (req : Request) (now : Int) :
    (Nat × BodyVal) × DBState :=
  if req.path = "/transactions" then (getTransactions s req.method, s)
  else if req.path = "/transaction" then createTransaction s req.method req.body now
  else handleTransactionByID s req.method req.path req.body

/-- The whole server: a matched route goes through the CORS wrapper to
the dispatcher; an unmatched path is the plain 404 of the mux, outside
the CORS wrapper. -/
def serve (s : DBState) (req : Request) (now : Int) : Response × DBState :=
  if routeMatch req.path then corsHandler dispatch s req now
  else (⟨404, BodyVal.text "404 page not found", none⟩, s)

/-- A create input rejected by the validation (empty description). -/
def txEmptyDesc : Transaction := ⟨0, "", 1, "income", 0⟩

/-- A well-formed create input. -/
def txValid : Transaction := ⟨0, "café", 3, "expense", 0⟩

/-- A pre-existing row with id 7. -/
def txRow7 : Transaction := ⟨7, "vieja", 2, "income", 4⟩

/-- Unfolding `createTransaction` on a valid POST body. -/
lemma create_valid_eq (s : DBState) (t : Transaction) (now : Int)
    (hv : ¬ invalidInput t) :
    createTransaction s "POST" (some t) now
      = ((201, BodyVal.json (JsonValue.obj
            ⟨s.nextId, t.description, roundCents t.amount, t.type, now⟩)),
         ⟨s.rows ++ [⟨s.nextId, t.description, roundCents t.amount, t.type, now⟩],
          s.nextId + 1⟩) := by
  simp [createTransaction, hv]

/-- Amounts that are a whole number of cents are unchanged by the
NUMERIC(10,2) column; in particular whole numbers are. -/
lemma roundCents_three : roundCents 3 = 3 := by
  rw [roundCents]
  norm_num [round_eq]

/-- The amount of the sample valid input is below the NUMERIC(10,2)
range bound. -/
lemma txValid_amount_small : txValid.amount < 100000000 := by
  norm_num [txValid]

/-- The half-cent amount written as a division. -/
lemma centHalf_eq : centHalf = 1 / 200 := by
  rw [← Rat.num_div_den centHalf]
  norm_num [centHalf]

/-- The half-cent amount is rounded up to one cent by the NUMERIC(10,2)
column. -/
lemma roundCents_centHalf : roundCents centHalf = 1 / 100 := by
  rw [roundCents, centHalf_eq]
  norm_num [round_eq]

/-- Searching an appended list skips a first block in which no element
satisfies the predicate. -/
lemma find?_append_right {α : Type} (p : α → Bool) (l₁ l₂ : List α)
    (h : ∀ a ∈ l₁, ¬ p a) : (l₁ ++ l₂).find? p = l₂.find? p := by
  induction l₁ with
  | nil => rfl
  | cons a l ih =>
    have ha : ¬ p a := h a (List.mem_cons_self a l)
    simp only [List.cons_append, List.find?]
    rw [Bool.not_eq_true] at ha
    rw [ha]
    exact ih (fun b hb => h b (List.mem_cons_of_mem a hb))

/-- No row matches the id: the UPDATE statement rewrites nothing. -/
lemma map_updRow_of_no_match (t : Transaction) (id : Int) (l : List Transaction)
    (h : ∀ r ∈ l, r.id ≠ id) : l.map (updRow t id) = l := by
  induction l with
  | nil => rfl
  | cons a l ih =>
    have ha : a.id ≠ id := h a (List.mem_cons_self a l)
    simp only [List.map_cons, updRow, if_neg ha]
    rw [ih (fun b hb => h b (List.mem_cons_of_mem a hb))]

/-- Unfolding `updateTransaction` with a valid body when no row has the
id. -/
lemma update_not_found (s : DBState) (t : Transaction) (id : Int)
    (hv : ¬ invalidInput t) (h : ∀ r ∈ s.rows, r.id ≠ id) :
    updateTransaction s (some t) id
      = ((404, BodyVal.text "Transacción no encontrada"), s) := by
  have hc : s.rows.countP (fun r => decide (r.id = id)) = 0 := by
    rw [List.countP_eq_zero]
    intro a ha
    simpa using h a ha
  have hm : s.rows.map (updRow t id) = s.rows := map_updRow_of_no_match t id s.rows h
  simp only [updateTransaction, if_neg hv, hc, if_pos rfl, hm]
  rfl

/-- Unfolding `updateTransaction` with a valid body when some row has
the id. -/
lemma update_found (s : DBState) (t : Transaction) (id : Int)
    (hv : ¬ invalidInput t) (h : ∃ r ∈ s.rows, r.id = id) :
    updateTransaction s (some t) id
      = ((200, BodyVal.text ("Transacción " ++ toString id ++ " actualizada correctamente")),
         ⟨s.rows.map (updRow t id), s.nextId⟩) := by
  have hc : s.rows.countP (fun r => decide (r.id = id)) ≠ 0 := by
    have : 0 < s.rows.countP (fun r => decide (r.id = id)) := by
      rw [List.countP_pos_iff]
      obtain ⟨r, hr, hid⟩ := h
      exact ⟨r, hr, by simpa using hid⟩
    omega
  simp only [updateTransaction, if_neg hv, if_neg hc]

/-- Appending each row to a non-nil slice keeps it non-nil and
concatenates. -/
lemma foldl_goAppend (l : List Transaction) (acc : List Transaction) :
    l.foldl goAppend (some acc) = some (acc ++ l) := by
  induction l generalizing acc with
  | nil => simp
  | cons a l ih =>
    simp only [List.foldl_cons]
    rw [show goAppend (some acc) a = some (acc ++ [a]) from rfl, ih]
    simp

/-- The list handler on GET returns 200 with the JSON array of the rows
ordered newest-first. -/
lemma getTransactions_eq (s : DBState) :
    getTransactions s "GET"
      = (200, BodyVal.json (JsonValue.arr (orderByCreatedDesc s.rows))) := by
  unfold getTransactions
  rw [if_neg (by simp)]
  rw [show goSliceEmpty = some [] from rfl, foldl_goAppend]
  simp [encodeSlice]

/-- A row strictly newer than every other row sorts to the front. -/
lemma sort_head_of_strict_max (L : List Transaction) (x : Transaction)
    (h : ∀ y ∈ L, y.created_at < x.created_at) :
    ∃ rest, orderByCreatedDesc (L ++ [x]) = x :: rest := by
  have hperm : (orderByCreatedDesc (L ++ [x])).Perm (L ++ [x]) :=
    List.perm_insertionSort rCreated (L ++ [x])
  have hsort : List.Sorted rCreated (orderByCreatedDesc (L ++ [x])) :=
    List.sorted_insertionSort rCreated (L ++ [x])
  have hx : x ∈ orderByCreatedDesc (L ++ [x]) := hperm.mem_iff.mpr (by simp)
  cases hout : orderByCreatedDesc (L ++ [x]) with
  | nil => rw [hout] at hx; cases hx
  | cons a rest =>
    refine ⟨rest, ?_⟩
    rw [hout] at hx hperm hsort
    have ha : a = x := by
      rcases List.mem_cons.mp hx with heq | hmem
      · exact heq.symm
      · have hr : rCreated a x := (List.pairwise_cons.mp hsort).1 x hmem
        have haL : a ∈ L ++ [x] := hperm.mem_iff.mp (List.mem_cons_self a rest)
        rcases List.mem_append.mp haL with hL | hxx
        · exact absurd hr (not_le.mpr (h a hL))
        · simpa using hxx
    rw [ha]

/-- On the /transaction/ subtree a DELETE can only answer 200, 400 or
404. -/
lemma delete_subtree_status (s : DBState) (path : String) (body : Option Transaction) :
    (handleTransactionByID s "DELETE" path body).1.1 = 200
    ∨ (handleTransactionByID s "DELETE" path body).1.1 = 400
    ∨ (handleTransactionByID s "DELETE" path body).1.1 = 404 := by
  by_cases h2 : (splitPath path).length < 2
  · simp [handleTransactionByID, h2]
  · cases hat : atoi (lastSegment (splitPath path)) with
    | none => simp [handleTransactionByID, h2, hat]
    | some id =>
      simp only [handleTransactionByID, if_neg h2, hat]
      norm_num
      unfold deleteTransaction
      by_cases hc : s.rows.countP (fun r => decide (r.id = id)) = 0 <;> simp [hc]

/-- C1: a POST /transaction body with empty description, non-positive
amount, or a type outside income/expense gets status 400 and leaves the
table untouched. -/
theorem claim_C1 (s : DBState) (t : Transaction) (now : Int)
    (h : t.description = "" ∨ t.amount ≤ 0 ∨ (t.type ≠ "income" ∧ t.type ≠ "expense")) :
    createTransaction s "POST" (some t) now
      = ((400, BodyVal.text "Descripción, monto o tipo inválido"), s) := by
  have hi : invalidInput t := h
  simp [createTransaction, hi]

/-- Concrete instance of C1: an empty description is rejected. -/
theorem claim_C1_witness :
    (txEmptyDesc.description = "" ∨ txEmptyDesc.amount ≤ 0
      ∨ (txEmptyDesc.type ≠ "income" ∧ txEmptyDesc.type ≠ "expense"))
    ∧ createTransaction ⟨[], 1⟩ "POST" (some txEmptyDesc) 0
        = ((400, BodyVal.text "Descripción, monto o tipo inválido"), ⟨[], 1⟩) :=
  ⟨by decide, claim_C1 ⟨[], 1⟩ txEmptyDesc 0 (by decide)⟩

/-- C2 counterexample: creating a valid transaction whose amount is
half a cent (0.005) stores it rounded to one cent, so reading it back
by the returned id yields a different amount, refuting the round-trip
claim for arbitrary valid amounts. -/
theorem claim_C2_cex :
    ¬ invalidInput txHalfCent
    ∧ createTransaction ⟨[], 1⟩ "POST" (some txHalfCent) 9
        = ((201, BodyVal.json (JsonValue.obj ⟨1, "redondeo", roundCents centHalf, "income", 9⟩)),
           ⟨[⟨1, "redondeo", roundCents centHalf, "income", 9⟩], 2⟩)
    ∧ getTransactionByID ⟨[⟨1, "redondeo", roundCents centHalf, "income", 9⟩], 2⟩ 1
        = (200, BodyVal.json (JsonValue.obj ⟨1, "redondeo", roundCents centHalf, "income", 9⟩))
    ∧ roundCents centHalf ≠ centHalf := by
  have hpos : (0 : ℚ) < centHalf := by rw [centHalf_eq]; norm_num
  have hv : ¬ invalidInput txHalfCent := by
    intro h
    rcases h with h | h | h
    · exact absurd h (by decide)
    · exact absurd h (not_le.mpr hpos)
    · exact h.1 rfl
  refine ⟨hv, ?_, ?_, ?_⟩
  · simpa [txHalfCent] using create_valid_eq ⟨[], 1⟩ txHalfCent 9 hv
  · simp [getTransactionByID, List.find?]
  · rw [roundCents_centHalf, centHalf_eq]
    norm_num

/-- C2 amended: creating a valid transaction whose amount is an exact
number of cents within the NUMERIC(10,2) range, and reading it back by
the id the server returned, yields the same description, amount and
type. -/
theorem claim_C2 (s : DBState) (t : Transaction) (now : Int)
    (hv : ¬ invalidInput t)
    (hf : ∀ r ∈ s.rows, r.id ≠ s.nextId)
    (hround : roundCents t.amount = t.amount)
    (_hsmall : t.amount < 100000000) :
    ∃ t' : Transaction,
      createTransaction s "POST" (some t) now
        = ((201, BodyVal.json (JsonValue.obj t')), ⟨s.rows ++ [t'], s.nextId + 1⟩)
      ∧ getTransactionByID (createTransaction s "POST" (some t) now).2 t'.id
          = (200, BodyVal.json (JsonValue.obj t'))
      ∧ t'.description = t.description ∧ t'.amount = t.amount ∧ t'.type = t.type := by
  refine ⟨⟨s.nextId, t.description, roundCents t.amount, t.type, now⟩,
    create_valid_eq s t now hv, ?_, rfl, hround, rfl⟩
  rw [create_valid_eq s t now hv]
  unfold getTransactionByID
  rw [find?_append_right _ s.rows _ (by
    intro r hr
    simpa using hf r hr)]
  simp [List.find?]

/-- Concrete instance of the amended C2: a valid create with a
whole-number amount on an empty table round trips. -/
theorem claim_C2_witness :
    ¬ invalidInput txValid
    ∧ (∀ r ∈ ([] : List Transaction), r.id ≠ 1)
    ∧ roundCents txValid.amount = txValid.amount
    ∧ txValid.amount < 100000000
    ∧ ∃ t' : Transaction,
        createTransaction ⟨[], 1⟩ "POST" (some txValid) 9
          = ((201, BodyVal.json (JsonValue.obj t')), ⟨[] ++ [t'], 1 + 1⟩)
        ∧ getTransactionByID (createTransaction ⟨[], 1⟩ "POST" (some txValid) 9).2 t'.id
            = (200, BodyVal.json (JsonValue.obj t'))
        ∧ t'.description = txValid.description ∧ t'.amount = txValid.amount
        ∧ t'.type = txValid.type :=
  ⟨by decide, by simp, roundCents_three, txValid_amount_small,
   claim_C2 ⟨[], 1⟩ txValid 9 (by decide) (by simp) roundCents_three txValid_amount_small⟩

/-- C3: with a valid body, a PUT to an id no row has yields 404 and the
unchanged table; a PUT to an existing id yields 200 with the plain-text
confirmation message, not the updated resource. -/
theorem claim_C3 (s : DBState) (t : Transaction) (id : Int)
    (hv : ¬ invalidInput t) :
    ((∀ r ∈ s.rows, r.id ≠ id) →
      updateTransaction s (some t) id
        = ((404, BodyVal.text "Transacción no encontrada"), s))
    ∧ ((∃ r ∈ s.rows, r.id = id) →
      updateTransaction s (some t) id
        = ((200, BodyVal.text ("Transacción " ++ toString id ++ " actualizada correctamente")),
           ⟨s.rows.map (updRow t id), s.nextId⟩)) :=
  ⟨fun h => update_not_found s t id hv h, fun h => update_found s t id hv h⟩

/-- Concrete instance of C3: updating id 9 on a table holding only id 7
is 404 and leaves the row; updating id 7 is 200 with the text
message. -/
theorem claim_C3_witness :
    ¬ invalidInput txValid
    ∧ (updateTransaction ⟨[txRow7], 8⟩ (some txValid) 9
        = ((404, BodyVal.text "Transacción no encontrada"), ⟨[txRow7], 8⟩))
    ∧ (updateTransaction ⟨[txRow7], 8⟩ (some txValid) 7
        = ((200, BodyVal.text ("Transacción " ++ toString (7 : Int) ++ " actualizada correctamente")),
           ⟨[txRow7].map (updRow txValid 7), 8⟩)) :=
  ⟨by decide,
   (claim_C3 ⟨[txRow7], 8⟩ txValid 9 (by decide)).1 (by decide),
   (claim_C3 ⟨[txRow7], 8⟩ txValid 7 (by decide)).2 ⟨txRow7, by decide, by decide⟩⟩

/-- C4: the list handler returns all rows sorted by creation time
descending, and a row created with a timestamp newer than every
existing row heads the next listing, so it appears before every row
created earlier. -/
theorem claim_C4 (s : DBState) (t : Transaction) (now : Int)
    (hv : ¬ invalidInput t)
    (hlt : ∀ r ∈ s.rows, r.created_at < now) :
    (orderByCreatedDesc s.rows).Perm s.rows
    ∧ List.Pairwise rCreated (orderByCreatedDesc s.rows)
    ∧ getTransactions s "GET"
        = (200, BodyVal.json (JsonValue.arr (orderByCreatedDesc s.rows)))
    ∧ ∃ rest, getTransactions (createTransaction s "POST" (some t) now).2 "GET"
        = (200, BodyVal.json (JsonValue.arr
            ((⟨s.nextId, t.description, roundCents t.amount, t.type, now⟩ : Transaction)
              :: rest))) := by
  refine ⟨List.perm_insertionSort rCreated s.rows,
    List.sorted_insertionSort rCreated s.rows,
    getTransactions_eq s, ?_⟩
  rw [create_valid_eq s t now hv]
  obtain ⟨rest, hrest⟩ :=
    sort_head_of_strict_max s.rows
      ⟨s.nextId, t.description, roundCents t.amount, t.type, now⟩ hlt
  exact ⟨rest, by rw [getTransactions_eq, hrest]⟩

/-- Concrete instance of C4: a row created at time 9 heads the listing
of a table whose only other row was created at time 4. -/
theorem claim_C4_witness :
    ¬ invalidInput txValid
    ∧ (∀ r ∈ [txRow7], r.created_at < 9)
    ∧ ∃ rest, getTransactions (createTransaction ⟨[txRow7], 8⟩ "POST" (some txValid) 9).2 "GET"
        = (200, BodyVal.json (JsonValue.arr
            ((⟨8, txValid.description, roundCents txValid.amount, txValid.type, 9⟩ : Transaction)
              :: rest))) :=
  ⟨by decide, by decide,
   (claim_C4 ⟨[txRow7], 8⟩ txValid 9 (by decide) (by decide)).2.2.2⟩

/-- C5: on an empty table the list handler answers 200 with the JSON
empty array, never JSON null. -/
theorem claim_C5 (s : DBState) (h : s.rows = []) :
    getTransactions s "GET" = (200, BodyVal.json (JsonValue.arr []))
    ∧ (getTransactions s "GET").2 ≠ BodyVal.json JsonValue.null := by
  have := getTransactions_eq s
  rw [h] at this
  refine ⟨by simpa [orderByCreatedDesc] using this, ?_⟩
  rw [this]
  simp [orderByCreatedDesc, List.insertionSort]

/-- Concrete instance of C5 on the empty database. -/
theorem claim_C5_witness :
    getTransactions ⟨[], 1⟩ "GET" = (200, BodyVal.json (JsonValue.arr []))
    ∧ (getTransactions ⟨[], 1⟩ "GET").2 ≠ BodyVal.json JsonValue.null :=
  claim_C5 ⟨[], 1⟩ rfl

/-- C6 counterexample: a DELETE whose trailing path segment is not
numeric fails with status 400, which is neither 404 nor 500, refuting
the claim that a failed DELETE can only be 404 or 500. -/
theorem claim_C6_cex :
    (serve ⟨[], 1⟩ ⟨"DELETE", "/transaction/abc", "", none⟩ 0).1.status = 400
    ∧ ¬ ((serve ⟨[], 1⟩ ⟨"DELETE", "/transaction/abc", "", none⟩ 0).1.status = 200
        ∨ (serve ⟨[], 1⟩ ⟨"DELETE", "/transaction/abc", "", none⟩ 0).1.status = 404
        ∨ (serve ⟨[], 1⟩ ⟨"DELETE", "/transaction/abc", "", none⟩ 0).1.status = 500) := by
  decide

/-- C6 amended: a DELETE on the /transaction/ subtree either succeeds
with 200 or fails with 400 (missing or non-numeric id segment) or 404
(no such row); in this fault-free database model the 500 of a driver
error cannot arise. -/
theorem claim_C6 (s : DBState) (path origin : String) (body : Option Transaction)
    (now : Int) (hp : strStarts path "/transaction/" = true) :
    (serve s ⟨"DELETE", path, origin, body⟩ now).1.status = 200
    ∨ (serve s ⟨"DELETE", path, origin, body⟩ now).1.status = 400
    ∨ (serve s ⟨"DELETE", path, origin, body⟩ now).1.status = 404 := by
  have hroute : routeMatch path = true := by simp [routeMatch, hp]
  by_cases hp1 : path = "/transactions"
  · rw [hp1] at hp; exact absurd hp (by decide)
  by_cases hp2 : path = "/transaction"
  · rw [hp2] at hp; exact absurd hp (by decide)
  have hserve : (serve s ⟨"DELETE", path, origin, body⟩ now).1.status
      = (handleTransactionByID s "DELETE" path body).1.1 := by
    simp [serve, hroute, corsHandler, dispatch, hp1, hp2]
  rw [hserve]
  exact delete_subtree_status s path body

/-- Concrete instance of the amended C6: DELETE /transaction/7 answers
one of 200, 400, 404. -/
theorem claim_C6_witness :
    strStarts "/transaction/7" "/transaction/" = true
    ∧ ((serve ⟨[], 1⟩ ⟨"DELETE", "/transaction/7", "", none⟩ 0).1.status = 200
      ∨ (serve ⟨[], 1⟩ ⟨"DELETE", "/transaction/7", "", none⟩ 0).1.status = 400
      ∨ (serve ⟨[], 1⟩ ⟨"DELETE", "/transaction/7", "", none⟩ 0).1.status = 404) :=
  ⟨by decide, claim_C6 ⟨[], 1⟩ "/transaction/7" "" none 0 (by decide)⟩

/-- C7: whenever the trailing path segment does not parse as an
integer, the /transaction/ subtree handler answers 400, leaves the
database untouched, and behaves identically whatever the method and
body, so no per-method operation is reached. -/
theorem claim_C7 (s : DBState) (m path : String) (body : Option Transaction)
    (h : atoi (lastSegment (splitPath path)) = none) :
    (handleTransactionByID s m path body).1.1 = 400
    ∧ (handleTransactionByID s m path body).2 = s
    ∧ (∀ m' : String, ∀ body' : Option Transaction,
        handleTransactionByID s m path body = handleTransactionByID s m' path body') := by
  by_cases h2 : (splitPath path).length < 2
  · refine ⟨by simp [handleTransactionByID, h2], by simp [handleTransactionByID, h2], ?_⟩
    intro m' body'
    simp [handleTransactionByID, h2]
  · refine ⟨by simp [handleTransactionByID, h2, h], by simp [handleTransactionByID, h2, h], ?_⟩
    intro m' body'
    simp [handleTransactionByID, h2, h]

/-- Concrete instance of C7: PUT /transaction/abc with a valid body is
400 and changes nothing. -/
theorem claim_C7_witness :
    atoi (lastSegment (splitPath "/transaction/abc")) = none
    ∧ (handleTransactionByID ⟨[txRow7], 8⟩ "PUT" "/transaction/abc" (some txValid)).1.1 = 400
    ∧ (handleTransactionByID ⟨[txRow7], 8⟩ "PUT" "/transaction/abc" (some txValid)).2 = ⟨[txRow7], 8⟩
    ∧ handleTransactionByID ⟨[txRow7], 8⟩ "PUT" "/transaction/abc" (some txValid)
        = handleTransactionByID ⟨[txRow7], 8⟩ "DELETE" "/transaction/abc" none :=
  ⟨by decide,
   (claim_C7 ⟨[txRow7], 8⟩ "PUT" "/transaction/abc" (some txValid) (by decide)).1,
   (claim_C7 ⟨[txRow7], 8⟩ "PUT" "/transaction/abc" (some txValid) (by decide)).2.1,
   (claim_C7 ⟨[txRow7], 8⟩ "PUT" "/transaction/abc" (some txValid) (by decide)).2.2 "DELETE" none⟩

/-- C8: a successful PUT maps each row through `updRow`, which keeps
the id and creation timestamp of the matching row, rewrites exactly its
three mutable fields, and leaves every other row identical; the next
SERIAL id is untouched. -/
theorem claim_C8 (s : DBState) (t : Transaction) (id : Int)
    (hv : ¬ invalidInput t) (hex : ∃ r ∈ s.rows, r.id = id) :
    (updateTransaction s (some t) id).1.1 = 200
    ∧ (updateTransaction s (some t) id).2.rows = s.rows.map (updRow t id)
    ∧ (updateTransaction s (some t) id).2.nextId = s.nextId
    ∧ (∀ r : Transaction, (updRow t id r).id = r.id
        ∧ (updRow t id r).created_at = r.created_at)
    ∧ (∀ r : Transaction, r.id ≠ id → updRow t id r = r)
    ∧ (∀ r : Transaction, r.id = id →
        updRow t id r = ⟨r.id, t.description, roundCents t.amount, t.type, r.created_at⟩) := by
  rw [update_found s t id hv hex]
  refine ⟨rfl, rfl, rfl, ?_, ?_, ?_⟩
  · intro r
    unfold updRow
    by_cases hr : r.id = id <;> simp [hr]
  · intro r hr
    simp [updRow, hr]
  · intro r hr
    simp [updRow, hr]

/-- Concrete instance of C8: updating the row with id 7 keeps its id
and timestamp. -/
theorem claim_C8_witness :
    ¬ invalidInput txValid
    ∧ (updateTransaction ⟨[txRow7], 8⟩ (some txValid) 7).2.rows
        = [txRow7].map (updRow txValid 7)
    ∧ updRow txValid 7 txRow7 = ⟨7, "café", roundCents txValid.amount, "expense", 4⟩ :=
  ⟨by decide,
   ((claim_C8 ⟨[txRow7], 8⟩ txValid 7 (by decide) ⟨txRow7, by decide, by decide⟩).2.1),
   (claim_C8 ⟨[txRow7], 8⟩ txValid 7 (by decide) ⟨txRow7, by decide, by decide⟩).2.2.2.2.2 txRow7 rfl⟩

/-- C9: whatever inner handler the CORS wrapper guards, the
allow-origin response header is echoed exactly when the request origin
is on the allow-list, and an OPTIONS request is answered 200 with an
empty body and an untouched database, identically for every inner
handler, so none is reached. -/
theorem claim_C9 (h h' : DBState → Request → Int → (Nat × BodyVal) × DBState)
    (s : DBState) (req : Request) (now : Int) :
    ((req.origin ∈ allowedOrigins →
        (corsHandler h s req now).1.acao = some req.origin)
      ∧ (req.origin ∉ allowedOrigins →
        (corsHandler h s req now).1.acao = none))
    ∧ (req.method = "OPTIONS" →
        (corsHandler h s req now).1.status = 200
        ∧ (corsHandler h s req now).1.body = BodyVal.empty
        ∧ (corsHandler h s req now).2 = s
        ∧ corsHandler h s req now = corsHandler h' s req now) := by
  constructor
  · constructor
    · intro hmem
      by_cases hop : req.method = "OPTIONS" <;>
        simp [corsHandler, corsACAO, hmem, hop]
    · intro hmem
      by_cases hop : req.method = "OPTIONS" <;>
        simp [corsHandler, corsACAO, hmem, hop]
  · intro hop
    refine ⟨?_, ?_, ?_, ?_⟩ <;> simp [corsHandler, hop]

/-- Concrete instance of C9: a preflight from an allow-listed origin is
echoed and answered 200 without touching the database. -/
theorem claim_C9_witness :
    ("http://localhost:8080" ∈ allowedOrigins
      → (corsHandler dispatch ⟨[], 1⟩ ⟨"OPTIONS", "/transaction", "http://localhost:8080", none⟩ 0).1.acao
          = some "http://localhost:8080")
    ∧ (corsHandler dispatch ⟨[], 1⟩ ⟨"OPTIONS", "/transaction", "http://localhost:8080", none⟩ 0).1.status = 200
    ∧ (corsHandler dispatch ⟨[], 1⟩ ⟨"OPTIONS", "/transaction", "http://localhost:8080", none⟩ 0).2 = ⟨[], 1⟩ :=
  ⟨(claim_C9 dispatch dispatch ⟨[], 1⟩ ⟨"OPTIONS", "/transaction", "http://localhost:8080", none⟩ 0).1.1,
   ((claim_C9 dispatch dispatch ⟨[], 1⟩ ⟨"OPTIONS", "/transaction", "http://localhost:8080", none⟩ 0).2 rfl).1,
   ((claim_C9 dispatch dispatch ⟨[], 1⟩ ⟨"OPTIONS", "/transaction", "http://localhost:8080", none⟩ 0).2 rfl).2.2.1⟩

/-- C10: two non-OPTIONS requests differing only in their Origin header
get the same status, the same body, and leave the same database behind;
the origin can influence nothing but the allow-origin header. -/
theorem claim_C10 (s : DBState) (m path o₁ o₂ : String)
    (body : Option Transaction) (now : Int) (hm : m ≠ "OPTIONS") :
    (serve s ⟨m, path, o₁, body⟩ now).1.status = (serve s ⟨m, path, o₂, body⟩ now).1.status
    ∧ (serve s ⟨m, path, o₁, body⟩ now).1.body = (serve s ⟨m, path, o₂, body⟩ now).1.body
    ∧ (serve s ⟨m, path, o₁, body⟩ now).2 = (serve s ⟨m, path, o₂, body⟩ now).2 := by
  have hd : dispatch s ⟨m, path, o₁, body⟩ now = dispatch s ⟨m, path, o₂, body⟩ now := rfl
  by_cases hr : routeMatch path
  · simp [serve, hr, corsHandler, hm, hd]
  · simp [serve, hr]

/-- Concrete instance of C10: a GET /transactions from an allow-listed
and from a foreign origin agree on status, body and database. -/
theorem claim_C10_witness :
    ("GET" : String) ≠ "OPTIONS"
    ∧ (serve ⟨[txRow7], 8⟩ ⟨"GET", "/transactions", "http://localhost:8080", none⟩ 0).1.status
        = (serve ⟨[txRow7], 8⟩ ⟨"GET", "/transactions", "evil.example", none⟩ 0).1.status
    ∧ (serve ⟨[txRow7], 8⟩ ⟨"GET", "/transactions", "http://localhost:8080", none⟩ 0).1.body
        = (serve ⟨[txRow7], 8⟩ ⟨"GET", "/transactions", "evil.example", none⟩ 0).1.body
    ∧ (serve ⟨[txRow7], 8⟩ ⟨"GET", "/transactions", "http://localhost:8080", none⟩ 0).2
        = (serve ⟨[txRow7], 8⟩ ⟨"GET", "/transactions", "evil.example", none⟩ 0).2 :=
  ⟨by decide,
   claim_C10 ⟨[txRow7], 8⟩ "GET" "/transactions" "http://localhost:8080" "evil.example" none 0 (by decide)⟩

end TransactionApp
